import Mathlib

/-!
Verification of the example-file-transfer repository against its
natural-language specification.

The development shallowly embeds the two Python source files:
  * `src/sam-app/process-app/app/main.py` (the Change Processor,
    `lambda_handler`), and
  * `src/sam-app/upload-app/app/main.py` (the Upload Service,
    `upload_file`, startup configuration, endpoint parameter binding).

Python dictionaries/JSON-like values are embedded as the inductive type
`JVal`; the Python operations the sources use (`in`, `[...]` indexing,
`.get`, truthiness, `==` against a string literal) are embedded as total
Lean functions returning `Except PyErr _` where the Python operation can
raise.
-/

namespace FileTransfer

/-- Embedding of the Python/JSON values flowing through both handlers:
`None`, booleans, integers, strings, lists, and dictionaries with string
keys (represented as association lists; Python dictionaries have unique
keys, and lookup takes the first occurrence). -/
inductive JVal where
  | none : JVal
  | bool : Bool → JVal
  | num : Int → JVal
  | str : String → JVal
  | arr : List JVal → JVal
  | obj : List (String × JVal) → JVal

/-- Exceptions the embedded Python operations can raise. -/
inductive PyErr where
  | typeError : PyErr
  | keyError : PyErr
  | attributeError : PyErr
deriving DecidableEq

/-- First-occurrence lookup in an association list (Python dict lookup). -/
def lookupStr : List (String × JVal) → String → Option JVal
  | [], _ => Option.none
  | (k, v) :: rest, key => if k = key then Option.some v else lookupStr rest key

/-- Python `v == "lit"` for a string literal: true exactly when `v` is the
equal string (no other value compares equal to a string). -/
def pyEqStr (v : JVal) (s : String) : Bool :=
  match v with
  | .str t => t = s
  | _ => false

/-- Contiguous-sublist (substring) test on character lists, used to embed
Python's `key in s` on strings. -/
def charSubList (needle : List Char) : List Char → Bool
  | [] => needle.isPrefixOf []
  | c :: rest => needle.isPrefixOf (c :: rest) || charSubList needle rest

/-- Python `key in v` for a string key: dict key membership, substring test
on strings, element membership on lists; `TypeError` on non-containers. -/
def pyContains (v : JVal) (key : String) : Except PyErr Bool :=
  match v with
  | .obj kvs => .ok (lookupStr kvs key).isSome
  | .str s => .ok (charSubList key.toList s.toList)
  | .arr xs => .ok (xs.any (fun x => pyEqStr x key))
  | _ => .error .typeError

/-- Python `v[key]` for a string key: dict indexing (`KeyError` when the
key is absent); `TypeError` on every non-dict value (indexing a string or
list with a string key raises `TypeError`). -/
def pyIndex (v : JVal) (key : String) : Except PyErr JVal :=
  match v with
  | .obj kvs =>
    match lookupStr kvs key with
    | Option.some x => .ok x
    | Option.none => .error .keyError
  | _ => .error .typeError

/-- Python `v.get(key, default)`: defaulting dict lookup; `AttributeError`
on every non-dict value (which has no `get` method). -/
def pyGet (v : JVal) (key : String) (dflt : JVal) : Except PyErr JVal :=
  match v with
  | .obj kvs => .ok ((lookupStr kvs key).getD dflt)
  | _ => .error .attributeError

/-- Python truthiness of an embedded value. -/
def pyTruthy : JVal → Bool
  | .none => false
  | .bool b => b
  | .num n => n != 0
  | .str s => !s.isEmpty
  | .arr xs => !xs.isEmpty
  | .obj kvs => !kvs.isEmpty

/-! ## Change Processor (`src/sam-app/process-app/app/main.py`) -/

/-- Downstream payload `{'user_id': ..., 'file_path': ...}` built by the
Change Processor (main.py lines 44-47). The values come from `.get('S')`
lookups, so they are arbitrary embedded values. -/
structure Payload where
  user_id : JVal
  file_path : JVal

/-- Return value of `lambda_handler` (main.py lines 67-75): status code
plus the body's message and `processed_data` list (the body's JSON
serialisation is not modelled; its fields are). -/
structure LambdaResponse where
  statusCode : Nat
  message : String
  processed_data : List Payload

/-- Body of the `try` block of `lambda_handler` (main.py lines 29-56),
with exceptions left as `Except.error`: re-index `record['dynamodb']['NewImage']`,
extract `new_image.get('UserID', {}).get('S')` and
`new_image.get('FilePath', {}).get('S')`, skip (`Option.none`) if either is
falsy, otherwise produce the downstream payload. -/
def tryProcessE (record : JVal) : Except PyErr (Option Payload) :=
  match pyIndex record "dynamodb" with
  | .error e => .error e
  | .ok dyn =>
  match pyIndex dyn "NewImage" with
  | .error e => .error e
  | .ok new_image =>
  match pyGet new_image "UserID" (JVal.obj []) with
  | .error e => .error e
  | .ok uidObj =>
  match pyGet uidObj "S" JVal.none with
  | .error e => .error e
  | .ok user_id =>
  match pyGet new_image "FilePath" (JVal.obj []) with
  | .error e => .error e
  | .ok fpObj =>
  match pyGet fpObj "S" JVal.none with
  | .error e => .error e
  | .ok file_path =>
  if !pyTruthy user_id || !pyTruthy file_path then .ok Option.none
  else .ok (Option.some ⟨user_id, file_path⟩)

/-- The `try`/`except` of main.py lines 29-62: any exception inside the
block is caught (logged) and the loop continues, i.e. the record simply
contributes nothing. -/
def tryProcess (record : JVal) : Option Payload :=
  match tryProcessE record with
  | .ok o => o
  | .error _ => Option.none

/-- One iteration of the `for record in event` loop (main.py lines 21-62).
The structure check `'dynamodb' not in record or 'NewImage' not in
record['dynamodb']` and the `record.get('eventName') == 'INSERT'` dispatch
run OUTSIDE the `try` block, so exceptions they raise propagate
(`Except.error`) and abort the whole batch; short-circuit evaluation of
`or` is modelled exactly. `Except.ok Option.none` means the record was
skipped; `Except.ok (Option.some p)` means it produced payload `p`. -/
def processRecord (record : JVal) : Except PyErr (Option Payload) :=
  match pyContains record "dynamodb" with
  | .error e => .error e
  | .ok hasDyn =>
    if !hasDyn then .ok Option.none
    else
      match pyIndex record "dynamodb" with
      | .error e => .error e
      | .ok dyn =>
        match pyContains dyn "NewImage" with
        | .error e => .error e
        | .ok hasNewImage =>
          if !hasNewImage then .ok Option.none
          else
            match pyGet record "eventName" JVal.none with
            | .error e => .error e
            | .ok ev =>
              if pyEqStr ev "INSERT" then .ok (tryProcess record)
              else .ok Option.none

/-- The `for` loop of `lambda_handler` accumulating `processed_records`
in order; an uncaught exception at any record aborts the batch. -/
def processLoop : List JVal → Except PyErr (List Payload)
  | [] => .ok []
  | record :: rest =>
    match processRecord record with
    | .error e => .error e
    | .ok o =>
      match processLoop rest with
      | .error e => .error e
      | .ok tail =>
        match o with
        | Option.some p => .ok (p :: tail)
        | Option.none => .ok tail

/-- Embedding of `lambda_handler` from `src/sam-app/process-app/app/main.py`: process the
batch record by record, then return statusCode 200 with the message
`Successfully processed {len(processed_records)} records.` and the list of
produced payloads. -/
def lambda_handler (event : List JVal) : Except PyErr LambdaResponse :=
  match processLoop event with
  | .error e => .error e
  | .ok processed =>
    .ok { statusCode := 200,
          message := "Successfully processed " ++ toString processed.length ++ " records.",
          processed_data := processed }

/-! ## Upload Service (`src/sam-app/upload-app/app/main.py`) -/

/-- Decimal rendering of a natural number, fuel-based so that it reduces
in the kernel; embeds Python `str(n)` for the non-negative integers the
Upload Service formats (`strftime` fields, record counts). -/
def natStrAux : Nat → Nat → List Char
  | 0, _ => []
  | fuel + 1, n =>
    if n < 10 then [Char.ofNat (48 + n)]
    else natStrAux fuel (n / 10) ++ [Char.ofNat (48 + n % 10)]

/-- Decimal digit list of `n` (fuel `n + 1` always suffices). -/
def natStrL (n : Nat) : List Char := natStrAux (n + 1) n

/-- Zero-pad the decimal rendering of `n` to width `w` on the left, as the
`strftime` directives `%Y`, `%m`, `%d`, `%H`, `%M`, `%S`, `%f` do. -/
def padL (w n : Nat) : List Char :=
  List.replicate (w - (natStrL n).length) '0' ++ natStrL n

/-- Embedding of a Python `datetime.datetime` value: the fields
`strftime`/`isoformat` read. -/
structure PyDateTime where
  year : Nat
  month : Nat
  day : Nat
  hour : Nat
  minute : Nat
  second : Nat
  microsecond : Nat

/-- Field ranges a real `datetime.datetime` guarantees (Python datetimes
range over years 1..9999, months 1..12, and so on; microseconds are below
one million). -/
def validPyDateTime (t : PyDateTime) : Prop :=
  1 ≤ t.year ∧ t.year ≤ 9999 ∧ 1 ≤ t.month ∧ t.month ≤ 12 ∧ 1 ≤ t.day ∧ t.day ≤ 31 ∧
    t.hour ≤ 23 ∧ t.minute ≤ 59 ∧ t.second ≤ 59 ∧ t.microsecond ≤ 999999

instance (t : PyDateTime) : Decidable (validPyDateTime t) := by
  unfold validPyDateTime; infer_instance

/-- Embedding of `datetime.datetime.now().strftime("%Y%m%d%H%M%S%f")` (main.py line 95):
the zero-padded concatenation year(4) month(2) day(2) hour(2) minute(2)
second(2) microsecond(6). -/
def strftimeYmdHMSf (t : PyDateTime) : String :=
  String.mk (padL 4 t.year ++ padL 2 t.month ++ padL 2 t.day ++ padL 2 t.hour ++
    padL 2 t.minute ++ padL 2 t.second ++ padL 6 t.microsecond)

/-- Python slicing `s[:-3]`: all but the last three characters (empty when
the string has at most three). -/
def pySliceDropLast3 (s : String) : String :=
  String.mk (s.toList.take (s.toList.length - 3))

/-- The `current_time` value of main.py line 95:
`datetime.datetime.now().strftime("%Y%m%d%H%M%S%f")[:-3]`. -/
def currentTimeKey (t : PyDateTime) : String :=
  pySliceDropLast3 (strftimeYmdHMSf t)

/-- Embedding of `datetime.datetime.now(datetime.timezone.utc).isoformat()` (main.py
line 114): `YYYY-MM-DDTHH:MM:SS[.ffffff]+00:00`, the fractional part
omitted when the microsecond field is zero. -/
def isoformatUtc (t : PyDateTime) : String :=
  String.mk (padL 4 t.year ++ ['-'] ++ padL 2 t.month ++ ['-'] ++ padL 2 t.day ++ ['T'] ++
    padL 2 t.hour ++ [':'] ++ padL 2 t.minute ++ [':'] ++ padL 2 t.second ++
    (if t.microsecond = 0 then [] else ['.'] ++ padL 6 t.microsecond) ++
    "+00:00".toList)

/-- Embedding of `os.path.join` on POSIX, two arguments: an absolute second component
replaces the accumulator, otherwise the parts are joined with `/` (no
separator added after a trailing `/` or an empty accumulator). -/
def posixJoinTwo (acc p : String) : String :=
  if p.toList.head? = Option.some '/' then p
  else if acc.toList = [] || acc.toList.getLast? = Option.some '/' then acc ++ p
  else acc ++ "/" ++ p

/-- Embedding of `os.path.join(a, b, c, d)` as used at main.py lines 97-99. -/
def posixJoin : List String → String
  | [] => ""
  | x :: xs => xs.foldl posixJoinTwo x

/-- The environment-sourced configuration of main.py lines 23-25. -/
structure UploadConfig where
  s3BucketName : String
  dynamodbTableName : String
  destinationSystemId : String

/-- Python truthiness of `os.environ.get(...)`: falsy when the variable is
absent or set to the empty string. -/
def envTruthy : Option String → Bool
  | Option.none => false
  | Option.some s => !s.isEmpty

/-- Startup configuration loading (main.py lines 23-28): read
`S3_BUCKET_NAME` and `DYNAMODB_TABLE_NAME`, read `DESTINATION_SYSTEM_ID`
with default `"A01"`, and raise `RuntimeError` (abort startup) when either
required value is falsy. -/
def startupConfig (env : String → Option String) : Except String UploadConfig :=
  let s3 := env "S3_BUCKET_NAME"
  let ddb := env "DYNAMODB_TABLE_NAME"
  let dest := (env "DESTINATION_SYSTEM_ID").getD "A01"
  if !envTruthy s3 || !envTruthy ddb then
    .error "S3_BUCKET_NAME and DYNAMODB_TABLE_NAME must be set"
  else
    .ok { s3BucketName := s3.getD "", dynamodbTableName := ddb.getD "",
          destinationSystemId := dest }

/-- The DynamoDB item registered by main.py lines 110-118. -/
structure Item where
  FilePath : String
  UserID : String
  Comment : String
  RegistrationDate : String
  DownloadCount : Nat
  DestinationSystemID : String
  IsDeleted : Bool

/-- Result of one `upload_file` call: the success body
`{"message": ..., "s3_path": ...}`, an `HTTPException(status_code, detail)`,
or an exception the handler does not catch (propagated to the framework). -/
inductive UploadResponse where
  | success (message s3_path : String) : UploadResponse
  | httpError (statusCode : Nat) (detail : String) : UploadResponse
  | unhandledError : UploadResponse

/-- Observable outcome of one `upload_file` call: the response together
with the `s3_client.put_object` calls (bucket, key, body) and the
`table.put_item` calls issued during the call. -/
structure UploadOutcome where
  response : UploadResponse
  s3PutCalls : List (String × String × List Nat)
  ddbPutCalls : List Item

/-- The claim-extraction chain of main.py line 84:
`request.scope.get("aws.event", {}).get("requestContext", {})
.get("authorizer", {}).get("jwt", {}).get("claims", {})` followed by
`claims.get("sub")` (line 85). Any `.get` on a non-dict intermediate value
raises, which the surrounding `try` turns into a 403. -/
def extractUserId (scope : JVal) : Except PyErr JVal :=
  match pyGet scope "aws.event" (JVal.obj []) with
  | .error e => .error e
  | .ok e1 =>
  match pyGet e1 "requestContext" (JVal.obj []) with
  | .error e => .error e
  | .ok e2 =>
  match pyGet e2 "authorizer" (JVal.obj []) with
  | .error e => .error e
  | .ok e3 =>
  match pyGet e3 "jwt" (JVal.obj []) with
  | .error e => .error e
  | .ok e4 =>
  match pyGet e4 "claims" (JVal.obj []) with
  | .error e => .error e
  | .ok claims =>
  pyGet claims "sub" JVal.none

/-- Whether the verified claims yield a truthy subject identifier: the
condition under which main.py lines 83-89 let the request proceed (both an
exception in the chain and a falsy `user_id` end in the same
`HTTPException(403)`, since the 403 raised inside the `try` is itself
caught by `except Exception` and replaced). -/
def authSubjectTruthy (scope : JVal) : Bool :=
  match extractUserId scope with
  | .ok v => pyTruthy v
  | .error _ => false

/-- Embedding of `upload_file` from `src/sam-app/upload-app/app/main.py` (lines 74-124).
The nondeterministic externals are passed as arguments: `scope` is the ASGI
scope holding the authorizer claims, `keyTime` is the `datetime.now()` of
line 95, `regTime` the `datetime.now(timezone.utc)` of line 114, and
`s3ok`/`ddbok` tell whether the two storage writes succeed. A non-string
truthy `user_id` makes `os.path.join` raise `TypeError`, which nothing in
the handler catches. -/
def upload_file (cfg : UploadConfig) (scope : JVal) (filename : String)
    (fileContent : List Nat) (comment : Option String)
    (keyTime regTime : PyDateTime) (s3ok ddbok : Bool) : UploadOutcome :=
  match extractUserId scope with
  | .error _ => ⟨.httpError 403 "Could not validate user from token.", [], []⟩
  | .ok uid =>
    if !pyTruthy uid then
      ⟨.httpError 403 "Could not validate user from token.", [], []⟩
    else if fileContent.isEmpty then
      ⟨.httpError 400 "File content is empty.", [], []⟩
    else
      match uid with
      | .str user_id =>
        let file_path := posixJoin
          [cfg.destinationSystemId, user_id, currentTimeKey keyTime, filename]
        let s3Call := (cfg.s3BucketName, file_path, fileContent)
        if !s3ok then
          ⟨.httpError 500 "Failed to upload file to S3.", [s3Call], []⟩
        else
          let item : Item :=
            { FilePath := file_path, UserID := user_id,
              Comment := comment.getD "",
              RegistrationDate := isoformatUtc regTime,
              DownloadCount := 0,
              DestinationSystemID := cfg.destinationSystemId,
              IsDeleted := false }
          if !ddbok then
            ⟨.httpError 500 "Failed to register metadata in DynamoDB.", [s3Call], [item]⟩
          else
            ⟨.success "File uploaded successfully." file_path, [s3Call], [item]⟩
      | _ => ⟨.unhandledError, [], []⟩

/-- A request body as received by the upload endpoint: either a multipart
form (optional `file` part with filename and bytes, optional `comment`
field) or a structured JSON body. -/
inductive RequestBody where
  | multipartForm (filePart : Option (String × List Nat)) (commentField : Option String) : RequestBody
  | jsonBody (payload : JVal) : RequestBody

/-- Models FastAPI request-validation/parameter binding for the endpoint
signature of main.py lines 74-77 — `file: UploadFile = File(...)`,
`comment: Optional[str] = Form(None)`. These parameters bind only from a
multipart form body; a missing `file` part, and any non-multipart body
(in particular a structured JSON body), fail validation with a client
error (HTTP 422) before the handler runs. No branch decodes base64: the
handler receives the raw multipart file bytes. -/
def bindUploadParams : RequestBody → Except (Nat × String) (String × List Nat × Option String)
  | .multipartForm (Option.some (fname, content)) c => .ok (fname, content, c)
  | .multipartForm Option.none _ => .error (422, "Field required")
  | .jsonBody _ => .error (422, "Field required")

/-! ## Claim-side predicates and concrete records -/

/-- Containers in the sense of Python's `in` operator: values on which
membership testing does not raise `TypeError`. -/
def isContainer : JVal → Bool
  | .str _ => true
  | .arr _ => true
  | .obj _ => true
  | _ => false

/-- Structural condition under which the Change Processor's per-record
code cannot raise outside its `try` block: the record is a dictionary and
its `dynamodb` member, when present, is a container. -/
def recordOk : JVal → Bool
  | .obj kvs =>
    match lookupStr kvs "dynamodb" with
    | Option.some v => isContainer v
    | Option.none => true
  | _ => false

/-- The payload a record contributes when per-record exceptions are
treated as a skip: `Option.none` when the record is skipped (or its
processing raised), `Option.some p` when it produces payload `p`. -/
def payloadOf (r : JVal) : Option Payload :=
  match processRecord r with
  | .ok o => o
  | .error _ => Option.none

/-- Whether the field `key` of a new-image snapshot carries a truthy `S`
value, i.e. `new_image.get(key, {}).get('S')` succeeds and is truthy. -/
def sFieldTruthy (nkvs : List (String × JVal)) (key : String) : Bool :=
  match lookupStr nkvs key with
  | Option.some (.obj fkvs) =>
    (match lookupStr fkvs "S" with
     | Option.some v => pyTruthy v
     | Option.none => false)
  | _ => false

/-- A well-formed INSERT change record in the sense of the spec: a
dictionary whose `eventName` is `"INSERT"`, whose `dynamodb` member is a
dictionary with a dictionary-shaped `NewImage`, and whose new image
carries both a `UserID` and a `FilePath` field with truthy `S` values. -/
def wfInsertRecord : JVal → Bool
  | .obj kvs =>
    (match lookupStr kvs "eventName" with
     | Option.some v => pyEqStr v "INSERT"
     | Option.none => false) &&
    (match lookupStr kvs "dynamodb" with
     | Option.some (.obj dkvs) =>
       (match lookupStr dkvs "NewImage" with
        | Option.some (.obj nkvs) => sFieldTruthy nkvs "UserID" && sFieldTruthy nkvs "FilePath"
        | _ => false)
     | _ => false)
  | _ => false

/-- A change record whose `eventName` is `"MODIFY"`. -/
def isModifyRecord : JVal → Bool
  | .obj kvs =>
    (match lookupStr kvs "eventName" with
     | Option.some v => pyEqStr v "MODIFY"
     | Option.none => false)
  | _ => false

/-- A well-formed change record with the given event name, user id and
file path, in the change-feed's field-tagged encoding. -/
def mkStreamRecord (ev u p : String) : JVal :=
  .obj [("eventName", .str ev),
        ("dynamodb", .obj [("NewImage",
          .obj [("UserID", .obj [("S", .str u)]),
                ("FilePath", .obj [("S", .str p)])])])]

/-! ## Lemmas about the Change Processor -/

theorem pyTruthy_getD_none (o : Option JVal) :
    pyTruthy (o.getD JVal.none) =
      (match o with | Option.some v => pyTruthy v | Option.none => false) := by
  cases o <;> rfl

theorem tryProcess_isSome (kvs dkvs : List (String × JVal))
    (hd : lookupStr kvs "dynamodb" = Option.some (.obj dkvs)) :
    (tryProcess (.obj kvs)).isSome =
      (match lookupStr dkvs "NewImage" with
       | Option.some (.obj nkvs) => sFieldTruthy nkvs "UserID" && sFieldTruthy nkvs "FilePath"
       | _ => false) := by
  rcases hn : lookupStr dkvs "NewImage" with _ | ni
  · simp [tryProcess, tryProcessE, pyIndex, hd, hn]
  · cases ni with
    | obj nkvs =>
      rcases hu : lookupStr nkvs "UserID" with _ | uv
      · rcases hf : lookupStr nkvs "FilePath" with _ | fv
        · simp [tryProcess, tryProcessE, pyIndex, pyGet, hd, hn, hu, hf, sFieldTruthy,
            lookupStr, pyTruthy]
        · cases fv <;>
            simp [tryProcess, tryProcessE, pyIndex, pyGet, hd, hn, hu, hf, sFieldTruthy,
              lookupStr, pyTruthy]
      · cases uv with
        | obj fkvs =>
          rcases hf : lookupStr nkvs "FilePath" with _ | fv
          · simp [tryProcess, tryProcessE, pyIndex, pyGet, hd, hn, hu, hf, sFieldTruthy,
              lookupStr, pyTruthy]
          · cases fv with
            | obj gkvs =>
              rcases hus : lookupStr fkvs "S" with _ | uS <;>
                rcases hfs : lookupStr gkvs "S" with _ | fS
              · simp [tryProcess, tryProcessE, pyIndex, pyGet, hd, hn, hu, hf, sFieldTruthy,
                  hus, hfs, pyTruthy]
              · simp [tryProcess, tryProcessE, pyIndex, pyGet, hd, hn, hu, hf, sFieldTruthy,
                  hus, hfs, pyTruthy]
              · simp [tryProcess, tryProcessE, pyIndex, pyGet, hd, hn, hu, hf, sFieldTruthy,
                  hus, hfs, pyTruthy]
              · simp only [tryProcess, tryProcessE, pyIndex, pyGet, hd, hn, hu, hf, sFieldTruthy,
                  hus, hfs, Option.getD_some]
                cases h1 : pyTruthy uS <;> cases h2 : pyTruthy fS <;> simp [h1, h2]
            | none =>
              simp [tryProcess, tryProcessE, pyIndex, pyGet, hd, hn, hu, hf, sFieldTruthy]
            | bool b =>
              simp [tryProcess, tryProcessE, pyIndex, pyGet, hd, hn, hu, hf, sFieldTruthy]
            | num n =>
              simp [tryProcess, tryProcessE, pyIndex, pyGet, hd, hn, hu, hf, sFieldTruthy]
            | str s =>
              simp [tryProcess, tryProcessE, pyIndex, pyGet, hd, hn, hu, hf, sFieldTruthy]
            | arr xs =>
              simp [tryProcess, tryProcessE, pyIndex, pyGet, hd, hn, hu, hf, sFieldTruthy]
        | none => simp [tryProcess, tryProcessE, pyIndex, pyGet, hd, hn, hu, sFieldTruthy]
        | bool b => simp [tryProcess, tryProcessE, pyIndex, pyGet, hd, hn, hu, sFieldTruthy]
        | num n => simp [tryProcess, tryProcessE, pyIndex, pyGet, hd, hn, hu, sFieldTruthy]
        | str s => simp [tryProcess, tryProcessE, pyIndex, pyGet, hd, hn, hu, sFieldTruthy]
        | arr xs => simp [tryProcess, tryProcessE, pyIndex, pyGet, hd, hn, hu, sFieldTruthy]
    | none => simp [tryProcess, tryProcessE, pyIndex, pyGet, hd, hn]
    | bool b => simp [tryProcess, tryProcessE, pyIndex, pyGet, hd, hn]
    | num n => simp [tryProcess, tryProcessE, pyIndex, pyGet, hd, hn]
    | str s => simp [tryProcess, tryProcessE, pyIndex, pyGet, hd, hn]
    | arr xs => simp [tryProcess, tryProcessE, pyIndex, pyGet, hd, hn]

theorem pyEqStr_getD_none (o : Option JVal) (s : String) :
    pyEqStr (o.getD JVal.none) s =
      (match o with | Option.some v => pyEqStr v s | Option.none => false) := by
  cases o <;> rfl

theorem processRecord_shape (kvs : List (String × JVal))
    (h : recordOk (.obj kvs) = true) :
    ∃ o, processRecord (.obj kvs) = .ok o := by
  rcases hd : lookupStr kvs "dynamodb" with _ | v
  · exact ⟨Option.none, by simp [processRecord, pyContains, hd]⟩
  · have hc : isContainer v = true := by simpa [recordOk, hd] using h
    have h1 : pyContains (JVal.obj kvs) "dynamodb" = Except.ok true := by
      simp [pyContains, hd]
    have h2 : pyIndex (JVal.obj kvs) "dynamodb" = Except.ok v := by
      simp [pyIndex, hd]
    have h3 : pyGet (JVal.obj kvs) "eventName" JVal.none =
        Except.ok ((lookupStr kvs "eventName").getD JVal.none) := by
      simp [pyGet]
    have hpc : ∃ b, pyContains v "NewImage" = .ok b := by
      cases v <;> simp_all [isContainer, pyContains]
    rcases hpc with ⟨b, hb⟩
    cases b
    · exact ⟨Option.none, by simp [processRecord, h1, h2, hb]⟩
    · cases hev : pyEqStr ((lookupStr kvs "eventName").getD JVal.none) "INSERT"
      · exact ⟨Option.none, by simp [processRecord, h1, h2, h3, hb, hev]⟩
      · exact ⟨tryProcess (.obj kvs), by simp [processRecord, h1, h2, h3, hb, hev]⟩

theorem processRecord_eq_of_recordOk (r : JVal) (h : recordOk r = true) :
    processRecord r = .ok (payloadOf r) := by
  cases r with
  | obj kvs =>
    rcases processRecord_shape kvs h with ⟨o, ho⟩
    simp [payloadOf, ho]
  | none => simp [recordOk] at h
  | bool b => simp [recordOk] at h
  | num n => simp [recordOk] at h
  | str s => simp [recordOk] at h
  | arr xs => simp [recordOk] at h

theorem payloadOf_isSome_eq_wfInsert (r : JVal) (h : recordOk r = true) :
    (payloadOf r).isSome = wfInsertRecord r := by
  cases r with
  | obj kvs =>
    rcases hd : lookupStr kvs "dynamodb" with _ | v
    · simp [payloadOf, processRecord, pyContains, hd, wfInsertRecord]
    · have hc : isContainer v = true := by simpa [recordOk, hd] using h
      have h1 : pyContains (JVal.obj kvs) "dynamodb" = Except.ok true := by
        simp [pyContains, hd]
      have h2 : pyIndex (JVal.obj kvs) "dynamodb" = Except.ok v := by
        simp [pyIndex, hd]
      have h3 : pyGet (JVal.obj kvs) "eventName" JVal.none =
          Except.ok ((lookupStr kvs "eventName").getD JVal.none) := by
        simp [pyGet]
      cases v with
      | obj dkvs =>
        rcases hn : lookupStr dkvs "NewImage" with _ | ni
        · have h4 : pyContains (JVal.obj dkvs) "NewImage" = Except.ok false := by
            simp [pyContains, hn]
          simp [payloadOf, processRecord, h1, h2, h4, wfInsertRecord, hd, hn]
        · have h4 : pyContains (JVal.obj dkvs) "NewImage" = Except.ok true := by
            simp [pyContains, hn]
          cases hev : pyEqStr ((lookupStr kvs "eventName").getD JVal.none) "INSERT"
          · have hwf : wfInsertRecord (.obj kvs) = false := by
              simp [wfInsertRecord, ← pyEqStr_getD_none, hev]
            simp [payloadOf, processRecord, h1, h2, h3, h4, hev, hwf]
          · have hpay : payloadOf (.obj kvs) = tryProcess (.obj kvs) := by
              simp [payloadOf, processRecord, h1, h2, h3, h4, hev]
            rw [hpay, tryProcess_isSome kvs dkvs hd]
            simp [wfInsertRecord, ← pyEqStr_getD_none, hev, hd]
      | str s =>
        have h5 : tryProcess (JVal.obj kvs) = Option.none := by
          simp [tryProcess, tryProcessE, pyIndex, hd]
        have hwf : wfInsertRecord (.obj kvs) = false := by
          simp [wfInsertRecord, hd]
        rcases hb : pyContains (JVal.str s) "NewImage" with e | b
        · simp [pyContains] at hb
        · cases b
          · simp [payloadOf, processRecord, h1, h2, hb, hwf]
          · cases hev : pyEqStr ((lookupStr kvs "eventName").getD JVal.none) "INSERT" <;>
              simp [payloadOf, processRecord, h1, h2, h3, hb, hev, h5, hwf]
      | arr xs =>
        have h5 : tryProcess (JVal.obj kvs) = Option.none := by
          simp [tryProcess, tryProcessE, pyIndex, hd]
        have hwf : wfInsertRecord (.obj kvs) = false := by
          simp [wfInsertRecord, hd]
        rcases hb : pyContains (JVal.arr xs) "NewImage" with e | b
        · simp [pyContains] at hb
        · cases b
          · simp [payloadOf, processRecord, h1, h2, hb, hwf]
          · cases hev : pyEqStr ((lookupStr kvs "eventName").getD JVal.none) "INSERT" <;>
              simp [payloadOf, processRecord, h1, h2, h3, hb, hev, h5, hwf]
      | none => simp [isContainer] at hc
      | bool b => simp [isContainer] at hc
      | num n => simp [isContainer] at hc
  | none => simp [recordOk] at h
  | bool b => simp [recordOk] at h
  | num n => simp [recordOk] at h
  | str s => simp [recordOk] at h
  | arr xs => simp [recordOk] at h

theorem payloadOf_modify (r : JVal) (h : isModifyRecord r = true) :
    payloadOf r = Option.none := by
  cases r with
  | obj kvs =>
    rcases he : lookupStr kvs "eventName" with _ | ev
    · simp [isModifyRecord, he] at h
    · have hm : pyEqStr ev "MODIFY" = true := by simpa [isModifyRecord, he] using h
      have hev : pyEqStr ((lookupStr kvs "eventName").getD JVal.none) "INSERT" = false := by
        cases ev <;> simp_all [pyEqStr, he]
      rcases hd : lookupStr kvs "dynamodb" with _ | v
      · simp [payloadOf, processRecord, pyContains, hd]
      · have h1 : pyContains (JVal.obj kvs) "dynamodb" = Except.ok true := by
          simp [pyContains, hd]
        have h2 : pyIndex (JVal.obj kvs) "dynamodb" = Except.ok v := by
          simp [pyIndex, hd]
        have h3 : pyGet (JVal.obj kvs) "eventName" JVal.none =
            Except.ok ((lookupStr kvs "eventName").getD JVal.none) := by
          simp [pyGet]
        rcases hb : pyContains v "NewImage" with e | b
        · simp [payloadOf, processRecord, h1, h2, hb]
        · cases b
          · simp [payloadOf, processRecord, h1, h2, hb]
          · simp [payloadOf, processRecord, h1, h2, h3, hb, hev]
  | none => simp [isModifyRecord] at h
  | bool b => simp [isModifyRecord] at h
  | num n => simp [isModifyRecord] at h
  | str s => simp [isModifyRecord] at h
  | arr xs => simp [isModifyRecord] at h

theorem processLoop_eq_filterMap (batch : List JVal)
    (h : ∀ r ∈ batch, recordOk r = true) :
    processLoop batch = .ok (batch.filterMap payloadOf) := by
  induction batch with
  | nil => rfl
  | cons r rest ih =>
    have hr : recordOk r = true := h r (List.mem_cons_self r rest)
    have hrest : ∀ x ∈ rest, recordOk x = true := fun x hx => h x (List.mem_cons_of_mem r hx)
    rw [processLoop, processRecord_eq_of_recordOk r hr, ih hrest]
    cases hp : payloadOf r <;> simp [List.filterMap_cons, hp]

theorem length_filterMap_eq_countP (f : JVal → Option Payload) (l : List JVal) :
    (l.filterMap f).length = l.countP (fun x => (f x).isSome) := by
  induction l with
  | nil => rfl
  | cons x xs ih =>
    cases hx : f x <;> simp [List.filterMap_cons, hx, List.countP_cons, ih]

/-! ## Lemmas about decimal rendering and the timestamp format -/

theorem natStrAux_fuel_irrel :
    ∀ (f1 : Nat), ∀ (f2 n : Nat), n < f1 → n < f2 → natStrAux f1 n = natStrAux f2 n := by
  intro f1
  induction f1 with
  | zero => intro f2 n h1 _; omega
  | succ a ih =>
    intro f2 n h1 h2
    cases f2 with
    | zero => omega
    | succ b =>
      by_cases h10 : n < 10
      · simp [natStrAux, h10]
      · have hdiv : n / 10 < n := Nat.div_lt_self (by omega) (by omega)
        simp only [natStrAux, h10, if_false]
        rw [ih (b) (n / 10) (by omega) (by omega)]

theorem natStrL_cons (n : Nat) :
    natStrL n = if n < 10 then [Char.ofNat (48 + n)]
      else natStrL (n / 10) ++ [Char.ofNat (48 + n % 10)] := by
  have hstep : natStrAux (n + 1) n = if n < 10 then [Char.ofNat (48 + n)]
      else natStrAux n (n / 10) ++ [Char.ofNat (48 + n % 10)] := rfl
  by_cases h10 : n < 10
  · rw [if_pos h10]
    show natStrAux (n + 1) n = _
    rw [hstep, if_pos h10]
  · rw [if_neg h10]
    show natStrAux (n + 1) n = _
    rw [hstep, if_neg h10]
    have hdiv : n / 10 < n := Nat.div_lt_self (by omega) (by omega)
    rw [natStrAux_fuel_irrel n (n / 10 + 1) (n / 10) hdiv (by omega)]
    rfl

theorem natStrL_length_le : ∀ (k : Nat), ∀ (n : Nat), n < 10 ^ (k + 1) →
    (natStrL n).length ≤ k + 1 := by
  intro k
  induction k with
  | zero =>
    intro n h
    rw [natStrL_cons, if_pos (by simpa using h)]
    rfl
  | succ k ih =>
    intro n h
    by_cases h10 : n < 10
    · rw [natStrL_cons, if_pos h10]; simp
    · rw [natStrL_cons, if_neg h10]
      have hdn : n / 10 < 10 ^ (k + 1) := by
        rw [Nat.div_lt_iff_lt_mul (by omega)]
        calc n < 10 ^ (k + 2) := h
        _ = 10 ^ (k + 1) * 10 := by ring
      have := ih (n / 10) hdn
      simp only [List.length_append, List.length_cons, List.length_nil]
      omega

theorem natStrL_digits : ∀ (n : Nat), ∀ c ∈ natStrL n, c.isDigit = true := by
  intro n
  induction n using Nat.strong_induction_on with
  | _ n ih =>
    intro c hc
    rw [natStrL_cons] at hc
    by_cases h10 : n < 10
    · rw [if_pos h10] at hc
      simp only [List.mem_singleton] at hc
      subst hc
      interval_cases n <;> decide
    · rw [if_neg h10] at hc
      rcases List.mem_append.mp hc with hc1 | hc2
      · exact ih (n / 10) (Nat.div_lt_self (by omega) (by omega)) c hc1
      · simp only [List.mem_singleton] at hc2
        subst hc2
        have hm : n % 10 < 10 := Nat.mod_lt _ (by omega)
        set m := n % 10 with hmm
        interval_cases m <;> decide

theorem padL_length (w n : Nat) (h : (natStrL n).length ≤ w) :
    (padL w n).length = w := by
  simp only [padL, List.length_append, List.length_replicate]
  omega

theorem padL_digits (w n : Nat) : ∀ c ∈ padL w n, c.isDigit = true := by
  intro c hc
  rcases List.mem_append.mp hc with hc1 | hc2
  · rw [List.eq_of_mem_replicate hc1]; decide
  · exact natStrL_digits n c hc2

theorem padL_peel (w n : Nat) (hw : 1 ≤ w) :
    padL (w + 1) n = padL w (n / 10) ++ [Char.ofNat (48 + n % 10)] := by
  by_cases h10 : n < 10
  · have hn10 : n / 10 = 0 := Nat.div_eq_of_lt h10
    have hm : n % 10 = n := Nat.mod_eq_of_lt h10
    have h0 : natStrL 0 = ['0'] := by rw [natStrL_cons]; rfl
    have hn : natStrL n = [Char.ofNat (48 + n)] := by rw [natStrL_cons, if_pos h10]
    rw [hn10, hm, padL, padL, h0, hn]
    simp only [List.length_singleton]
    obtain ⟨w', rfl⟩ : ∃ w', w = w' + 1 := ⟨w - 1, by omega⟩
    have : w' + 1 + 1 - 1 = w' + 1 := by omega
    rw [this, List.replicate_succ' w' '0']
    simp
  · rw [padL, padL, natStrL_cons n, if_neg h10]
    simp only [List.length_append, List.length_singleton]
    have : w + 1 - ((natStrL (n / 10)).length + 1) = w - (natStrL (n / 10)).length := by omega
    rw [this, List.append_assoc]

theorem padL6_split (u : Nat) :
    padL 6 u = padL 3 (u / 1000) ++
      [Char.ofNat (48 + u / 100 % 10), Char.ofNat (48 + u / 10 % 10),
       Char.ofNat (48 + u % 10)] := by
  have e1 := padL_peel 5 u (by omega)
  have e2 := padL_peel 4 (u / 10) (by omega)
  have e3 := padL_peel 3 (u / 100) (by omega)
  have d1 : u / 10 / 10 = u / 100 := by rw [Nat.div_div_eq_div_mul]
  have d2 : u / 100 / 10 = u / 1000 := by rw [Nat.div_div_eq_div_mul]
  rw [e1, e2, d1, e3, d2]
  simp [List.append_assoc]

theorem currentTimeKey_spec (t : PyDateTime) (hv : validPyDateTime t) :
    (currentTimeKey t).toList =
      padL 4 t.year ++ padL 2 t.month ++ padL 2 t.day ++ padL 2 t.hour ++
        padL 2 t.minute ++ padL 2 t.second ++ padL 3 (t.microsecond / 1000) ∧
    (currentTimeKey t).length = 17 ∧
    (∀ c ∈ (currentTimeKey t).toList, c.isDigit = true) := by
  obtain ⟨hy1, hy, hm1, hm, hd1, hd, hh, hmi, hs, hus⟩ := hv
  have ly : (padL 4 t.year).length = 4 :=
    padL_length _ _ (natStrL_length_le 3 _ (by omega))
  have lm : (padL 2 t.month).length = 2 :=
    padL_length _ _ (natStrL_length_le 1 _ (by omega))
  have ld : (padL 2 t.day).length = 2 :=
    padL_length _ _ (natStrL_length_le 1 _ (by omega))
  have lh : (padL 2 t.hour).length = 2 :=
    padL_length _ _ (natStrL_length_le 1 _ (by omega))
  have lmi : (padL 2 t.minute).length = 2 :=
    padL_length _ _ (natStrL_length_le 1 _ (by omega))
  have ls : (padL 2 t.second).length = 2 :=
    padL_length _ _ (natStrL_length_le 1 _ (by omega))
  have lq : (padL 3 (t.microsecond / 1000)).length = 3 :=
    padL_length _ _ (natStrL_length_le 2 _ (by
      have : t.microsecond / 1000 < 1000 := by omega
      omega))
  have hA : (currentTimeKey t).toList =
      padL 4 t.year ++ padL 2 t.month ++ padL 2 t.day ++ padL 2 t.hour ++
        padL 2 t.minute ++ padL 2 t.second ++ padL 3 (t.microsecond / 1000) := by
    have htl : (currentTimeKey t).toList =
        ((padL 4 t.year ++ padL 2 t.month ++ padL 2 t.day ++ padL 2 t.hour ++
          padL 2 t.minute ++ padL 2 t.second ++ padL 6 t.microsecond).take
          ((padL 4 t.year ++ padL 2 t.month ++ padL 2 t.day ++ padL 2 t.hour ++
            padL 2 t.minute ++ padL 2 t.second ++ padL 6 t.microsecond).length - 3)) := rfl
    rw [htl, padL6_split t.microsecond]
    have hassoc :
        padL 4 t.year ++ padL 2 t.month ++ padL 2 t.day ++ padL 2 t.hour ++
          padL 2 t.minute ++ padL 2 t.second ++
          (padL 3 (t.microsecond / 1000) ++
            [Char.ofNat (48 + t.microsecond / 100 % 10),
             Char.ofNat (48 + t.microsecond / 10 % 10),
             Char.ofNat (48 + t.microsecond % 10)]) =
        (padL 4 t.year ++ padL 2 t.month ++ padL 2 t.day ++ padL 2 t.hour ++
          padL 2 t.minute ++ padL 2 t.second ++ padL 3 (t.microsecond / 1000)) ++
          [Char.ofNat (48 + t.microsecond / 100 % 10),
           Char.ofNat (48 + t.microsecond / 10 % 10),
           Char.ofNat (48 + t.microsecond % 10)] := by
      simp [List.append_assoc]
    rw [hassoc]
    have hlen : ((padL 4 t.year ++ padL 2 t.month ++ padL 2 t.day ++ padL 2 t.hour ++
        padL 2 t.minute ++ padL 2 t.second ++ padL 3 (t.microsecond / 1000)) ++
        [Char.ofNat (48 + t.microsecond / 100 % 10),
         Char.ofNat (48 + t.microsecond / 10 % 10),
         Char.ofNat (48 + t.microsecond % 10)]).length - 3 =
        (padL 4 t.year ++ padL 2 t.month ++ padL 2 t.day ++ padL 2 t.hour ++
          padL 2 t.minute ++ padL 2 t.second ++ padL 3 (t.microsecond / 1000)).length := by
      simp only [List.length_append, List.length_cons, List.length_nil, ly, lm, ld, lh,
        lmi, ls, lq]
    rw [hlen, List.take_left]
  refine ⟨hA, ?_, ?_⟩
  · have hgen : ∀ s : String, s.length = s.toList.length := fun _ => rfl
    rw [hgen, hA]
    simp only [List.length_append, ly, lm, ld, lh, lmi, ls, lq]
  · intro c hc
    rw [hA] at hc
    simp only [List.append_assoc, List.mem_append] at hc
    rcases hc with h | h | h | h | h | h | h <;> exact padL_digits _ _ c h

/-! ## Claims about the Change Processor -/

/-- C2 (amended): for every batch in which each record is a dictionary
whose `dynamodb` member, when present, is a container, the batch-process
operation returns a success count of exactly the number M of well-formed
INSERT records carrying truthy `UserID` and `FilePath` fields, and a
processed-data list of length M, regardless of how malformed or
non-INSERT records are interspersed; in particular every `MODIFY` record
contributes zero. (Unrestricted, the claim is false: a record outside
this shape raises an uncaught `TypeError` that aborts the batch — see the
counterexample.) -/
theorem C2_insert_count (batch : List JVal)
    (h : ∀ r ∈ batch, recordOk r = true) :
    (∃ resp, lambda_handler batch = .ok resp ∧
      resp.statusCode = 200 ∧
      resp.processed_data.length = batch.countP wfInsertRecord ∧
      resp.message = "Successfully processed " ++
        toString (batch.countP wfInsertRecord) ++ " records.") ∧
    (∀ r ∈ batch, isModifyRecord r = true → payloadOf r = Option.none) := by
  have hlen : (batch.filterMap payloadOf).length = batch.countP wfInsertRecord := by
    rw [length_filterMap_eq_countP]
    exact List.countP_congr
      (fun r hr => by rw [payloadOf_isSome_eq_wfInsert r (h r hr)])
  constructor
  · refine ⟨_, by rw [lambda_handler, processLoop_eq_filterMap batch h], rfl, hlen, ?_⟩
    rw [hlen]
  · exact fun r _ hm => payloadOf_modify r hm

/-- C2 witness: a concrete batch of five records — two well-formed
INSERTs, one MODIFY, one empty dictionary, one INSERT with an empty
UserID — satisfies the hypothesis and yields count 2. -/
theorem C2_insert_count_witness :
    (∀ r ∈ [mkStreamRecord "INSERT" "wa" "wp", mkStreamRecord "MODIFY" "wb" "wq",
        JVal.obj [], mkStreamRecord "INSERT" "" "wr", mkStreamRecord "INSERT" "wc" "ws"],
      recordOk r = true) ∧
    ((∃ resp, lambda_handler [mkStreamRecord "INSERT" "wa" "wp",
        mkStreamRecord "MODIFY" "wb" "wq", JVal.obj [],
        mkStreamRecord "INSERT" "" "wr", mkStreamRecord "INSERT" "wc" "ws"] = .ok resp ∧
      resp.statusCode = 200 ∧
      resp.processed_data.length =
        List.countP wfInsertRecord [mkStreamRecord "INSERT" "wa" "wp",
          mkStreamRecord "MODIFY" "wb" "wq", JVal.obj [],
          mkStreamRecord "INSERT" "" "wr", mkStreamRecord "INSERT" "wc" "ws"] ∧
      resp.message = "Successfully processed " ++
        toString (List.countP wfInsertRecord [mkStreamRecord "INSERT" "wa" "wp",
          mkStreamRecord "MODIFY" "wb" "wq", JVal.obj [],
          mkStreamRecord "INSERT" "" "wr", mkStreamRecord "INSERT" "wc" "ws"]) ++
        " records.") ∧
    (∀ r ∈ [mkStreamRecord "INSERT" "wa" "wp", mkStreamRecord "MODIFY" "wb" "wq",
        JVal.obj [], mkStreamRecord "INSERT" "" "wr", mkStreamRecord "INSERT" "wc" "ws"],
      isModifyRecord r = true → payloadOf r = Option.none)) :=
  ⟨by decide, C2_insert_count _ (by decide)⟩

/-- C2 counterexample: the claim as stated is false — in a batch holding
one well-formed INSERT record and one malformed record that is not a
dictionary (here the integer 0), the processor does not return success
count 1: the membership test `'dynamodb' not in record` raises an
uncaught `TypeError` that aborts the whole batch. -/
theorem C2_insert_count_counterexample :
    wfInsertRecord (mkStreamRecord "INSERT" "u2" "p2") = true ∧
    lambda_handler [JVal.num 0, mkStreamRecord "INSERT" "u2" "p2"] =
      .error .typeError :=
  ⟨rfl, rfl⟩

/-- C3 (amended): exceptions raised inside the per-record `try` block are
caught and processing continues, so for every batch of dictionary-shaped
records whose `dynamodb` members (when present) are containers, the
handler succeeds and each record's contribution depends only on that
record (`payloadOf`), independently of the records around it. (The
structural shape check and the event-type dispatch run outside the `try`
block, so a record outside this shape raises an uncaught error that
aborts the batch and prevents the remaining records from being processed
— see the counterexample.) -/
theorem C3_per_record_isolation (batch : List JVal)
    (h : ∀ r ∈ batch, recordOk r = true) :
    lambda_handler batch = .ok
      { statusCode := 200,
        message := "Successfully processed " ++
          toString (batch.filterMap payloadOf).length ++ " records.",
        processed_data := batch.filterMap payloadOf } := by
  rw [lambda_handler, processLoop_eq_filterMap batch h]

/-- C3 witness: a batch holding a well-formed INSERT record, a dictionary
with a string `dynamodb` member, and an empty dictionary is processed to
completion with exactly the INSERT record's payload. -/
theorem C3_per_record_isolation_witness :
    (∀ r ∈ [mkStreamRecord "INSERT" "u4" "p4",
        JVal.obj [("dynamodb", JVal.str "weird")], JVal.obj []],
      recordOk r = true) ∧
    lambda_handler [mkStreamRecord "INSERT" "u4" "p4",
        JVal.obj [("dynamodb", JVal.str "weird")], JVal.obj []] = .ok
      { statusCode := 200,
        message := "Successfully processed " ++
          toString (List.filterMap payloadOf [mkStreamRecord "INSERT" "u4" "p4",
            JVal.obj [("dynamodb", JVal.str "weird")], JVal.obj []]).length ++ " records.",
        processed_data := List.filterMap payloadOf [mkStreamRecord "INSERT" "u4" "p4",
          JVal.obj [("dynamodb", JVal.str "weird")], JVal.obj []] } :=
  ⟨by decide, C3_per_record_isolation _ (by decide)⟩

/-- C3 counterexample: the claim as stated is false — the record `7` is
a single bad record, yet the exception it raises is not caught: it aborts
the batch and the well-formed INSERT record placed after it (which alone
is processed successfully) is never processed. -/
theorem C3_per_record_isolation_counterexample :
    lambda_handler [mkStreamRecord "INSERT" "u3" "p3"] =
      .ok { statusCode := 200, message := "Successfully processed 1 records.",
            processed_data := [⟨.str "u3", .str "p3"⟩] } ∧
    lambda_handler [JVal.num 7, mkStreamRecord "INSERT" "u3" "p3"] =
      .error .typeError :=
  ⟨rfl, rfl⟩

/-- C9: a well-formed INSERT change record whose new image carries a
`UserID` or `FilePath` field holding the empty string (`{"S": ""}`) is
skipped exactly like a record missing the field: it contributes no
payload — the check tests truthiness (emptiness), not absence. -/
theorem C9_empty_field_skipped (kvs dkvs nkvs : List (String × JVal))
    (he : lookupStr kvs "eventName" = Option.some (.str "INSERT"))
    (hd : lookupStr kvs "dynamodb" = Option.some (.obj dkvs))
    (hn : lookupStr dkvs "NewImage" = Option.some (.obj nkvs))
    (hempty : lookupStr nkvs "UserID" = Option.some (.obj [("S", .str "")]) ∨
      lookupStr nkvs "FilePath" = Option.some (.obj [("S", .str "")])) :
    processRecord (.obj kvs) = .ok Option.none := by
  have h1 : pyContains (JVal.obj kvs) "dynamodb" = Except.ok true := by
    simp [pyContains, hd]
  have h2 : pyIndex (JVal.obj kvs) "dynamodb" = Except.ok (JVal.obj dkvs) := by
    simp [pyIndex, hd]
  have h3 : pyGet (JVal.obj kvs) "eventName" JVal.none =
      Except.ok ((lookupStr kvs "eventName").getD JVal.none) := by
    simp [pyGet]
  have h4 : pyContains (JVal.obj dkvs) "NewImage" = Except.ok true := by
    simp [pyContains, hn]
  have hev : pyEqStr ((lookupStr kvs "eventName").getD JVal.none) "INSERT" = true := by
    simp [he, pyEqStr]
  have htry : tryProcess (JVal.obj kvs) = Option.none := by
    rcases hempty with hU | hF
    · rcases hf : lookupStr nkvs "FilePath" with _ | fv
      · simp [tryProcess, tryProcessE, pyIndex, pyGet, hd, hn, hU, hf, lookupStr, pyTruthy,
          show ("".isEmpty = true) from rfl]
      · cases fv <;>
          simp [tryProcess, tryProcessE, pyIndex, pyGet, hd, hn, hU, hf, lookupStr, pyTruthy,
            show ("".isEmpty = true) from rfl]
    · rcases hu : lookupStr nkvs "UserID" with _ | uv
      · simp [tryProcess, tryProcessE, pyIndex, pyGet, hd, hn, hu, hF, lookupStr, pyTruthy,
          show ("".isEmpty = true) from rfl]
      · cases uv <;>
          simp [tryProcess, tryProcessE, pyIndex, pyGet, hd, hn, hu, hF, lookupStr, pyTruthy,
            show ("".isEmpty = true) from rfl]
  simp [processRecord, h1, h2, h3, h4, hev, htry]

/-- C9 witness: a concrete INSERT record whose `UserID` field holds
`{"S": ""}` is skipped. -/
theorem C9_empty_field_skipped_witness :
    lookupStr [("UserID", JVal.obj [("S", JVal.str "")]),
        ("FilePath", JVal.obj [("S", JVal.str "p9")])] "UserID" =
      Option.some (.obj [("S", .str "")]) ∧
    processRecord (.obj [("eventName", JVal.str "INSERT"),
        ("dynamodb", JVal.obj [("NewImage",
          JVal.obj [("UserID", JVal.obj [("S", JVal.str "")]),
            ("FilePath", JVal.obj [("S", JVal.str "p9")])])])]) = .ok Option.none :=
  ⟨rfl, C9_empty_field_skipped _ _ _ rfl rfl rfl (Or.inl rfl)⟩

/-- C10 (amended): for every batch of dictionary-shaped records whose
`dynamodb` members (when present) are containers, the batch-process
operation returns statusCode 200 with the message
`Successfully processed {k} records.` where `k` is the number of produced
payloads, even when every record is skipped and `k` is 0. (For a
dictionary-shaped record whose `dynamodb` member is not a container the
handler instead raises an uncaught `TypeError` — see the
counterexample.) -/
theorem C10_always_200 (batch : List JVal)
    (h : ∀ r ∈ batch, recordOk r = true) :
    ∃ resp, lambda_handler batch = .ok resp ∧ resp.statusCode = 200 ∧
      resp.message = "Successfully processed " ++
        toString resp.processed_data.length ++ " records." :=
  ⟨_, by rw [lambda_handler, processLoop_eq_filterMap batch h], rfl, rfl⟩

/-- C10 witness: a batch in which every record is skipped still returns
statusCode 200 and the message for 0 records. -/
theorem C10_always_200_witness :
    (∀ r ∈ [mkStreamRecord "MODIFY" "ua" "pa", JVal.obj []], recordOk r = true) ∧
    (∃ resp, lambda_handler [mkStreamRecord "MODIFY" "ua" "pa", JVal.obj []] = .ok resp ∧
      resp.statusCode = 200 ∧
      resp.message = "Successfully processed " ++
        toString resp.processed_data.length ++ " records.") ∧
    lambda_handler [mkStreamRecord "MODIFY" "ua" "pa", JVal.obj []] =
      .ok { statusCode := 200, message := "Successfully processed 0 records.",
            processed_data := [] } :=
  ⟨by decide, C10_always_200 _ (by decide), rfl⟩

/-- C10 counterexample: the claim as stated is false — this batch is a
list of dictionary-shaped records, yet the handler raises an uncaught
`TypeError` (no statusCode-200 response at all), because the record's
`dynamodb` member is the integer 5 and `'NewImage' not in
record['dynamodb']` raises. -/
theorem C10_always_200_counterexample :
    lambda_handler [JVal.obj [("dynamodb", JVal.num 5)]] = .error .typeError :=
  rfl

/-! ## Claims about the Upload Service -/

/-- C1: for every valid upload (non-empty identity subject, non-empty
file content, both storage writes succeeding), `upload_file` returns the
success payload whose storage key is the path-join of the
destination-system identifier, the subject identifier, the timestamp and
the original file name, and writes exactly one metadata record whose
FilePath is that key, with DownloadCount 0, IsDeleted false, and Comment
equal to the supplied comment or `""` when none was supplied. -/
theorem C1_upload_success (cfg : UploadConfig) (scope : JVal) (u filename : String)
    (content : List Nat) (comment : Option String) (keyTime regTime : PyDateTime)
    (hs : extractUserId scope = .ok (.str u)) (hu : u ≠ "") (hc : content ≠ []) :
    upload_file cfg scope filename content comment keyTime regTime true true =
      { response := .success "File uploaded successfully."
          (posixJoin [cfg.destinationSystemId, u, currentTimeKey keyTime, filename]),
        s3PutCalls := [(cfg.s3BucketName,
          posixJoin [cfg.destinationSystemId, u, currentTimeKey keyTime, filename],
          content)],
        ddbPutCalls := [{
          FilePath := posixJoin [cfg.destinationSystemId, u, currentTimeKey keyTime, filename],
          UserID := u,
          Comment := comment.getD "",
          RegistrationDate := isoformatUtc regTime,
          DownloadCount := 0,
          DestinationSystemID := cfg.destinationSystemId,
          IsDeleted := false }] } := by
  have hie : u.isEmpty = false := by
    cases hie2 : u.isEmpty
    · rfl
    · exact absurd (String.isEmpty_iff u |>.mp hie2) hu
  have hce : content.isEmpty = false := by
    cases hce2 : content.isEmpty
    · rfl
    · exact absurd (List.isEmpty_iff.mp hce2) hc
  simp [upload_file, hs, pyTruthy, hie, hce]

/-- C1 witness: a concrete valid upload evaluates to the expected success
payload and metadata record. -/
theorem C1_upload_success_witness :
    extractUserId (.obj [("aws.event", .obj [("requestContext", .obj [("authorizer",
        .obj [("jwt", .obj [("claims", .obj [("sub", .str "user-1")])])])])])]) =
      .ok (.str "user-1") ∧
    upload_file ⟨"bkt", "tbl", "A01"⟩
        (.obj [("aws.event", .obj [("requestContext", .obj [("authorizer",
          .obj [("jwt", .obj [("claims", .obj [("sub", .str "user-1")])])])])])])
        "f.txt" [1, 2] (Option.some "hi") ⟨2024, 1, 2, 3, 4, 5, 678901⟩
        ⟨2024, 1, 2, 3, 4, 6, 0⟩ true true =
      { response := .success "File uploaded successfully."
          (posixJoin ["A01", "user-1", currentTimeKey ⟨2024, 1, 2, 3, 4, 5, 678901⟩, "f.txt"]),
        s3PutCalls := [("bkt",
          posixJoin ["A01", "user-1", currentTimeKey ⟨2024, 1, 2, 3, 4, 5, 678901⟩, "f.txt"],
          [1, 2])],
        ddbPutCalls := [{
          FilePath := posixJoin ["A01", "user-1",
            currentTimeKey ⟨2024, 1, 2, 3, 4, 5, 678901⟩, "f.txt"],
          UserID := "user-1",
          Comment := (Option.some "hi").getD "",
          RegistrationDate := isoformatUtc ⟨2024, 1, 2, 3, 4, 6, 0⟩,
          DownloadCount := 0,
          DestinationSystemID := "A01",
          IsDeleted := false }] } :=
  ⟨rfl, C1_upload_success ⟨"bkt", "tbl", "A01"⟩ _ "user-1" "f.txt" [1, 2]
    (Option.some "hi") ⟨2024, 1, 2, 3, 4, 5, 678901⟩ ⟨2024, 1, 2, 3, 4, 6, 0⟩
    rfl (by decide) (by decide)⟩

/-- C4: for every upload request whose verified claims yield no truthy
subject identifier (the extraction chain raises, the claim is absent, or
it is falsy), `upload_file` fails with HTTP 403 and performs no
blob-store call and no metadata-store call, for every outcome of the two
stores. -/
theorem C4_no_subject_403 (cfg : UploadConfig) (scope : JVal) (filename : String)
    (content : List Nat) (comment : Option String) (keyTime regTime : PyDateTime)
    (s3ok ddbok : Bool) (h : authSubjectTruthy scope = false) :
    upload_file cfg scope filename content comment keyTime regTime s3ok ddbok =
      { response := .httpError 403 "Could not validate user from token.",
        s3PutCalls := [], ddbPutCalls := [] } := by
  rcases he : extractUserId scope with e | v
  · simp [upload_file, he]
  · have hv : pyTruthy v = false := by simpa [authSubjectTruthy, he] using h
    simp [upload_file, he, hv]

/-- C4 witness: a request whose scope carries no authorizer claims gets
HTTP 403 and no storage calls. -/
theorem C4_no_subject_403_witness :
    authSubjectTruthy (JVal.obj []) = false ∧
    upload_file ⟨"bkt", "tbl", "A01"⟩ (JVal.obj []) "f.txt" [1, 2] Option.none
        ⟨2024, 1, 2, 3, 4, 5, 0⟩ ⟨2024, 1, 2, 3, 4, 6, 0⟩ true true =
      { response := .httpError 403 "Could not validate user from token.",
        s3PutCalls := [], ddbPutCalls := [] } :=
  ⟨rfl, C4_no_subject_403 ⟨"bkt", "tbl", "A01"⟩ (JVal.obj []) "f.txt" [1, 2]
    Option.none ⟨2024, 1, 2, 3, 4, 5, 0⟩ ⟨2024, 1, 2, 3, 4, 6, 0⟩ true true rfl⟩

/-- C5: for every authenticated upload request whose file content is
empty, `upload_file` fails with HTTP 400 and performs no blob-store call
and no metadata-store call, for every outcome of the two stores. -/
theorem C5_empty_content_400 (cfg : UploadConfig) (scope : JVal) (filename : String)
    (comment : Option String) (keyTime regTime : PyDateTime) (s3ok ddbok : Bool)
    (h : authSubjectTruthy scope = true) :
    upload_file cfg scope filename [] comment keyTime regTime s3ok ddbok =
      { response := .httpError 400 "File content is empty.",
        s3PutCalls := [], ddbPutCalls := [] } := by
  rcases he : extractUserId scope with e | v
  · simp [authSubjectTruthy, he] at h
  · have hv : pyTruthy v = true := by simpa [authSubjectTruthy, he] using h
    simp [upload_file, he, hv]

/-- C5 witness: an authenticated request with empty content gets HTTP 400
and no storage calls. -/
theorem C5_empty_content_400_witness :
    authSubjectTruthy (.obj [("aws.event", .obj [("requestContext", .obj [("authorizer",
        .obj [("jwt", .obj [("claims", .obj [("sub", .str "user-5")])])])])])]) = true ∧
    upload_file ⟨"bkt", "tbl", "A01"⟩
        (.obj [("aws.event", .obj [("requestContext", .obj [("authorizer",
          .obj [("jwt", .obj [("claims", .obj [("sub", .str "user-5")])])])])])])
        "f.txt" [] Option.none ⟨2024, 1, 2, 3, 4, 5, 0⟩ ⟨2024, 1, 2, 3, 4, 6, 0⟩ true true =
      { response := .httpError 400 "File content is empty.",
        s3PutCalls := [], ddbPutCalls := [] } :=
  ⟨rfl, C5_empty_content_400 ⟨"bkt", "tbl", "A01"⟩ _ "f.txt" Option.none
    ⟨2024, 1, 2, 3, 4, 5, 0⟩ ⟨2024, 1, 2, 3, 4, 6, 0⟩ true true rfl⟩

/-- C7: for every valid upload with a real datetime, the timestamp
component of the storage key is the 17-digit string
year(4) month(2) day(2) hour(2) minute(2) second(2) milliseconds(3)
(`YYYYMMDDHHMMSSmmm`, all decimal digits, milliseconds being the
microsecond field divided by 1000), and the written record's
RegistrationDate is the ISO-8601 UTC rendering of the write-time instant,
independent of the key timestamp. -/
theorem C7_timestamp_format (cfg : UploadConfig) (scope : JVal) (u filename : String)
    (content : List Nat) (comment : Option String) (keyTime regTime : PyDateTime)
    (hv : validPyDateTime keyTime)
    (hs : extractUserId scope = .ok (.str u)) (hu : u ≠ "") (hc : content ≠ []) :
    (upload_file cfg scope filename content comment keyTime regTime true true).response =
      .success "File uploaded successfully."
        (posixJoin [cfg.destinationSystemId, u, currentTimeKey keyTime, filename]) ∧
    (currentTimeKey keyTime).toList =
      padL 4 keyTime.year ++ padL 2 keyTime.month ++ padL 2 keyTime.day ++
        padL 2 keyTime.hour ++ padL 2 keyTime.minute ++ padL 2 keyTime.second ++
        padL 3 (keyTime.microsecond / 1000) ∧
    (currentTimeKey keyTime).length = 17 ∧
    (∀ c ∈ (currentTimeKey keyTime).toList, c.isDigit = true) ∧
    (∀ item ∈ (upload_file cfg scope filename content comment keyTime regTime
        true true).ddbPutCalls, item.RegistrationDate = isoformatUtc regTime) := by
  obtain ⟨hfmt, hlen, hdig⟩ := currentTimeKey_spec keyTime hv
  have hie : u.isEmpty = false := by
    cases hie2 : u.isEmpty
    · rfl
    · exact absurd (String.isEmpty_iff u |>.mp hie2) hu
  have hce : content.isEmpty = false := by
    cases hce2 : content.isEmpty
    · rfl
    · exact absurd (List.isEmpty_iff.mp hce2) hc
  refine ⟨?_, hfmt, hlen, hdig, ?_⟩
  · simp [upload_file, hs, pyTruthy, hie, hce]
  · intro item hitem
    simp only [upload_file, hs, pyTruthy, hie, hce] at hitem
    simp at hitem
    rw [hitem]

/-- C7 witness: a concrete valid upload; the key timestamp is
`20240102030405678` and the record's RegistrationDate is the ISO-8601
rendering of the UTC write time. -/
theorem C7_timestamp_format_witness :
    validPyDateTime ⟨2024, 1, 2, 3, 4, 5, 678901⟩ ∧
    currentTimeKey ⟨2024, 1, 2, 3, 4, 5, 678901⟩ = "20240102030405678" ∧
    isoformatUtc ⟨2024, 1, 2, 3, 4, 6, 0⟩ = "2024-01-02T03:04:06+00:00" ∧
    ((upload_file ⟨"bkt", "tbl", "A01"⟩
        (.obj [("aws.event", .obj [("requestContext", .obj [("authorizer",
          .obj [("jwt", .obj [("claims", .obj [("sub", .str "user-7")])])])])])])
        "f.txt" [1, 2] Option.none ⟨2024, 1, 2, 3, 4, 5, 678901⟩
        ⟨2024, 1, 2, 3, 4, 6, 0⟩ true true).response =
      .success "File uploaded successfully."
        (posixJoin ["A01", "user-7", currentTimeKey ⟨2024, 1, 2, 3, 4, 5, 678901⟩,
          "f.txt"]) ∧
    (currentTimeKey (⟨2024, 1, 2, 3, 4, 5, 678901⟩ : PyDateTime)).length = 17 ∧
    (∀ item ∈ (upload_file ⟨"bkt", "tbl", "A01"⟩
        (.obj [("aws.event", .obj [("requestContext", .obj [("authorizer",
          .obj [("jwt", .obj [("claims", .obj [("sub", .str "user-7")])])])])])])
        "f.txt" [1, 2] Option.none ⟨2024, 1, 2, 3, 4, 5, 678901⟩
        ⟨2024, 1, 2, 3, 4, 6, 0⟩ true true).ddbPutCalls,
      item.RegistrationDate = isoformatUtc ⟨2024, 1, 2, 3, 4, 6, 0⟩)) :=
  ⟨by decide, by rfl, by rfl,
    (fun h => ⟨h.1, h.2.2.1, h.2.2.2.2⟩)
      (C7_timestamp_format ⟨"bkt", "tbl", "A01"⟩
        (.obj [("aws.event", .obj [("requestContext", .obj [("authorizer",
          .obj [("jwt", .obj [("claims", .obj [("sub", .str "user-7")])])])])])])
        "user-7" "f.txt" [1, 2]
        Option.none ⟨2024, 1, 2, 3, 4, 5, 678901⟩ ⟨2024, 1, 2, 3, 4, 6, 0⟩
        (by decide) rfl (by decide) (by decide))⟩

/-- C8: at startup, a missing (or empty) blob-store bucket name or
metadata-store table name aborts startup with a `RuntimeError`, while a
missing destination-system identifier does not abort startup and defaults
to `"A01"`. -/
theorem C8_startup_config (env : String → Option String) :
    ((envTruthy (env "S3_BUCKET_NAME") = false ∨
        envTruthy (env "DYNAMODB_TABLE_NAME") = false) →
      startupConfig env = .error "S3_BUCKET_NAME and DYNAMODB_TABLE_NAME must be set") ∧
    (envTruthy (env "S3_BUCKET_NAME") = true →
      envTruthy (env "DYNAMODB_TABLE_NAME") = true →
      env "DESTINATION_SYSTEM_ID" = Option.none →
      ∃ cfg, startupConfig env = .ok cfg ∧ cfg.destinationSystemId = "A01") := by
  constructor
  · intro h
    unfold startupConfig
    rcases h with h | h <;> simp [h]
  · intro h1 h2 hd
    unfold startupConfig
    simp [h1, h2, hd]

/-- C8 witness: an environment missing the bucket name aborts startup; an
environment with both required names but no destination-system identifier
starts up with destination `"A01"`. -/
theorem C8_startup_config_witness :
    startupConfig (fun k => if k = "DYNAMODB_TABLE_NAME" then Option.some "t"
        else Option.none) =
      .error "S3_BUCKET_NAME and DYNAMODB_TABLE_NAME must be set" ∧
    (∃ cfg, startupConfig (fun k => if k = "S3_BUCKET_NAME" then Option.some "b"
        else if k = "DYNAMODB_TABLE_NAME" then Option.some "t" else Option.none) =
      .ok cfg ∧ cfg.destinationSystemId = "A01") :=
  ⟨(C8_startup_config (fun k => if k = "DYNAMODB_TABLE_NAME" then Option.some "t"
      else Option.none)).1 (Or.inl rfl),
   (C8_startup_config (fun k => if k = "S3_BUCKET_NAME" then Option.some "b"
      else if k = "DYNAMODB_TABLE_NAME" then Option.some "t" else Option.none)).2
      rfl rfl rfl⟩

/-- C6 (amended): the upload endpoint's parameter binding accepts only
the multipart-form encoding (a `file` part and optional `comment` field);
a structured-data body `{file_name, comment?, file_data}` is rejected
with a client validation error before the handler runs, and no base64
decoding path exists (the handler receives the raw multipart bytes). -/
theorem C6_multipart_only :
    (∀ (fname : String) (content : List Nat) (c : Option String),
      bindUploadParams (.multipartForm (Option.some (fname, content)) c) =
        .ok (fname, content, c)) ∧
    (∀ p : JVal, bindUploadParams (.jsonBody p) = .error (422, "Field required")) :=
  ⟨fun _ _ _ => rfl, fun _ => rfl⟩

/-- C6 counterexample: the claim as stated is false — a structured-data
body `{file_name, comment, file_data (base64)}` is not accepted: the
endpoint's `file: UploadFile = File(...)` parameter binds only from
multipart form data, so the JSON variant fails request validation (and no
base64 decoding is ever attempted). -/
theorem C6_multipart_only_counterexample :
    bindUploadParams (.jsonBody (.obj [("file_name", .str "a.txt"),
        ("comment", .str "c"), ("file_data", .str "aGVsbG8=")])) =
      .error (422, "Field required") :=
  rfl

end FileTransfer
